import Mathlib

/-!
Verification of the tap-dot overlay logic of the FIRESTORE_PRESENTATION
desktop helper.  The definitions below are a shallow embedding of the
Python sources:

  * `TapDot`, `TapDot.get_alpha`, `TapDot.is_expired`, `update_dots`
    come from `helper/overlay.py` (class `TapDot` lines 43-72 and
    `OverlayWindow._update_dots` lines 221-235; the leading underscore of
    the Python method name is dropped).
  * `SimpleDot`, `DOT_DURATION`, `cleanup_dots`, `linear_fade`, `add_dot`
    come from
    `releases/slide_tap_helper_v20250919_095117_with_autohotkey/overlay.py`
    (`SimpleOverlayWindow.__init__` line 73, `_cleanup_dots` lines 186-200,
    `paintEvent` lines 227-239, `add_dot` lines 138-177) and the identical
    filter in `helper/overlay_linux.py` (`_cleanup_dots` lines 62-74).
  * `py_int`, `Monitor`, `map_tap`, `TsField`, `ts_val`, `stale_discard`,
    `on_new_response` come from `helper/main.py`
    (`DesktopHelper._on_new_response` lines 572-620).
  * `HTTP_TRIGGER_COOLDOWN_MS`, `handle_http_trigger`, `http_run` come from
    `helper/alternative_triggers.py` lines 27-57.

Timestamps, durations and coordinates are modelled as rationals (the
Python code uses floats); the cosine easing forces the alpha value itself
into the reals.
-/

namespace FirestorePresentation

/-- Dot record from `helper/overlay.py` lines 43-52: position, colour,
radius, fade window in milliseconds and creation time in milliseconds. -/
structure TapDot where
  x : ℚ
  y : ℚ
  color : String
  radius : ℤ
  fade_ms : ℚ
  created_time : ℚ
deriving DecidableEq

/-- Cosine-eased opacity from `helper/overlay.py` lines 54-68, with the
implicit clock `time.time() * 1000` made an explicit argument `now`:
`fade_ms <= 0` gives 1, elapsed at least `fade_ms` gives 0, otherwise
`(cos(elapsed / fade_ms * pi) + 1) / 2`. -/
noncomputable def TapDot.get_alpha (d : TapDot) (now : ℚ) : ℝ :=
  if d.fade_ms ≤ 0 then 1
  else if d.fade_ms ≤ now - d.created_time then 0
  else (Real.cos ((((now - d.created_time) / d.fade_ms : ℚ) : ℝ) * Real.pi) + 1) / 2

/-- Expiry test from `helper/overlay.py` lines 70-72: `get_alpha() <= 0.0`. -/
def TapDot.is_expired (d : TapDot) (now : ℚ) : Prop :=
  d.get_alpha now ≤ 0

/-- Eviction sweep from `helper/overlay.py` lines 221-235
(`OverlayWindow._update_dots`): keep the dots that are not expired. -/
noncomputable def update_dots (dots : List TapDot) (now : ℚ) : List TapDot :=
  dots.filter fun d => !(@decide (d.is_expired now) (Classical.propDecidable _))

/-- Tuple dot of `SimpleOverlayWindow` (release `overlay.py` line 71:
"Simple dot storage: list of (x, y, timestamp) tuples"); the timestamp is
`time.time()` in seconds. -/
structure SimpleDot where
  x : ℚ
  y : ℚ
  t : ℚ
deriving DecidableEq

/-- Release `overlay.py` line 73: `self.DOT_DURATION = fade_ms / 1000.0`. -/
def DOT_DURATION (fade_ms : ℚ) : ℚ :=
  fade_ms / 1000

/-- Eviction sweep of release `overlay.py` lines 186-200
(`SimpleOverlayWindow._cleanup_dots`) and of `helper/overlay_linux.py`
lines 62-74: keep the tuples with `current_time - timestamp < DOT_DURATION`. -/
def cleanup_dots (dots : List SimpleDot) (now dur : ℚ) : List SimpleDot :=
  dots.filter fun d => decide (now - d.t < dur)

/-- Linear fade factor of the paint path, release `overlay.py` lines
231-234: a dot with `age < DOT_DURATION` is drawn with factor
`1.0 - age / DOT_DURATION`; otherwise it is not drawn at all, which we
record as factor 0. -/
def linear_fade (dur age : ℚ) : ℚ :=
  if age < dur then 1 - age / dur else 0

/-- `SimpleOverlayWindow.add_dot`, release `overlay.py` lines 138-177:
the tuple is appended unconditionally (out-of-bounds positions only log a
warning, line 155: "adding anyway"). -/
def add_dot (dots : List SimpleDot) (x y now : ℚ) : List SimpleDot :=
  dots ++ [⟨x, y, now⟩]

/-- Python `int()` conversion: truncation towards zero. -/
def py_int (q : ℚ) : ℤ :=
  if q < 0 then ⌈q⌉ else ⌊q⌋

/-- Monitor geometry as consumed by `_get_monitor_info`. -/
structure Monitor where
  x : ℤ
  y : ℤ
  width : ℤ
  height : ℤ
deriving DecidableEq

/-- Coordinate mapping of `helper/main.py` lines 605-608 (identically in
`helper/minimal_helper.py` lines 206-209):
`abs_x = int(x * monitor.width) + monitor.x` and likewise for y. -/
def map_tap (m : Monitor) (nx ny : ℚ) : ℤ × ℤ :=
  (py_int (nx * (m.width : ℚ)) + m.x, py_int (ny * (m.height : ℚ)) + m.y)

/-- Shape of the `timestamp` field of a response document as discriminated
by `helper/main.py` lines 580-587: an object with a `timestamp()` method,
a Python int or float, or anything else (including an absent field, which
`response_data.get` turns into Python `None`). -/
inductive TsField where
  | obj (v : ℚ)
  | num (v : ℚ)
  | strv (s : String)
  | pynone
deriving DecidableEq

/-- The numeric value `ts_val` extracted by `helper/main.py` lines 582-587:
`ts.timestamp()` for timestamp objects, `float(ts)` for numbers, `None`
otherwise. -/
def ts_val : TsField → Option ℚ
  | .obj v => some v
  | .num v => some v
  | .strv _ => none
  | .pynone => none

/-- Stale-response predicate of `helper/main.py` lines 578-592: with a
positive grace window, the response is skipped exactly when `ts_val` is
truthy (non-`None` and nonzero) and `ts_val < start_time - ignore_seconds`. -/
def stale_discard (ignore_seconds start_time : ℚ) (ts : TsField) : Bool :=
  if 0 < ignore_seconds then
    match ts_val ts with
    | some v => decide (v ≠ 0) && decide (v < start_time - ignore_seconds)
    | none => false
  else false

/-- Outcome of one `_on_new_response` call. -/
inductive HandlerResult where
  | staleSkip
  | slideMismatch
  | dotAdded (p : ℤ × ℤ)
deriving DecidableEq

/-- A tap-response document: normalized coordinates (defaulted to 0 by
`response_data.get` when absent) and the timestamp field. -/
structure Response where
  x : ℚ
  y : ℚ
  timestamp : TsField
deriving DecidableEq

/-- `DesktopHelper._on_new_response`, `helper/main.py` lines 572-620:
stale filter, then slide-index check, then coordinate mapping and
`overlay.add_dot`. -/
def on_new_response (ignore_seconds start_time : ℚ) (current_slide : ℤ)
    (m : Monitor) (r : Response) (slide_index : ℤ) : HandlerResult :=
  if stale_discard ignore_seconds start_time r.timestamp then .staleSkip
  else if slide_index ≠ current_slide then .slideMismatch
  else .dotAdded (map_tap m r.x r.y)

/-- `helper/alternative_triggers.py` line 29. -/
def HTTP_TRIGGER_COOLDOWN_MS : ℚ := 2000

/-- Result of one `handle_http_trigger` call. -/
inductive TriggerResult where
  | cooldown
  | captured
deriving DecidableEq

/-- `handle_http_trigger`, `helper/alternative_triggers.py` lines 35-57,
as a transition on the module state `last_http_trigger_time`: within the
cooldown the state is unchanged and a cooldown message is returned;
otherwise the state becomes `now` and the capture callback runs. -/
def handle_http_trigger (last now : ℚ) : ℚ × TriggerResult :=
  if now - last < HTTP_TRIGGER_COOLDOWN_MS then (last, .cooldown)
  else (now, .captured)

/-- Iterated HTTP trigger invocations: given the state `last` and the
arrival times of the invocations, return the times at which the screenshot
callback actually ran. -/
def http_run (last : ℚ) : List ℚ → List ℚ
  | [] => []
  | t :: ts =>
    if t - last < HTTP_TRIGGER_COOLDOWN_MS then http_run last ts
    else t :: http_run t ts

/-! ### Shared lemmas about the fade engine -/

/-- With a nonpositive fade window the cosine-eased opacity is constantly 1
(`helper/overlay.py` lines 56-57). -/
theorem get_alpha_of_nonpos (d : TapDot) (now : ℚ) (h : d.fade_ms ≤ 0) :
    d.get_alpha now = 1 := by
  unfold TapDot.get_alpha
  rw [if_pos h]

/-- Once the elapsed time reaches the fade window, the cosine-eased opacity
is 0 (`helper/overlay.py` lines 62-63). -/
theorem get_alpha_of_elapsed_ge (d : TapDot) (now : ℚ) (h0 : 0 < d.fade_ms)
    (h : d.fade_ms ≤ now - d.created_time) :
    d.get_alpha now = 0 := by
  unfold TapDot.get_alpha
  rw [if_neg (not_le.mpr h0), if_pos h]

/-- The cosine-eased opacity always lies in the unit interval. -/
theorem get_alpha_bounds (d : TapDot) (now : ℚ) :
    0 ≤ d.get_alpha now ∧ d.get_alpha now ≤ 1 := by
  unfold TapDot.get_alpha
  split_ifs with h1 h2
  · norm_num
  · norm_num
  · have hlo := Real.neg_one_le_cos ((((now - d.created_time) / d.fade_ms : ℚ) : ℝ) * Real.pi)
    have hhi := Real.cos_le_one ((((now - d.created_time) / d.fade_ms : ℚ) : ℝ) * Real.pi)
    constructor <;> linarith

/-- Strictly inside the fade window (with a nonnegative elapsed time) the
cosine-eased opacity is strictly positive, hence the dot is not expired. -/
theorem not_expired_of_lt (d : TapDot) (now : ℚ) (h0 : 0 < d.fade_ms)
    (hge : d.created_time ≤ now) (hlt : now - d.created_time < d.fade_ms) :
    ¬ d.is_expired now := by
  unfold TapDot.is_expired TapDot.get_alpha
  rw [if_neg (not_le.mpr h0), if_neg (not_le.mpr hlt)]
  have hp0 : (0 : ℚ) ≤ (now - d.created_time) / d.fade_ms :=
    div_nonneg (by linarith) h0.le
  have hp1 : (now - d.created_time) / d.fade_ms < 1 :=
    (div_lt_one h0).mpr hlt
  set p : ℚ := (now - d.created_time) / d.fade_ms with hp
  have hx0 : (0 : ℝ) ≤ (p : ℝ) * Real.pi :=
    mul_nonneg (by exact_mod_cast hp0) Real.pi_pos.le
  have hxpi : (p : ℝ) * Real.pi < Real.pi := by
    have : (p : ℝ) < 1 := by exact_mod_cast hp1
    calc (p : ℝ) * Real.pi < 1 * Real.pi :=
          mul_lt_mul_of_pos_right this Real.pi_pos
      _ = Real.pi := one_mul _
  have hcos : (-1 : ℝ) < Real.cos ((p : ℝ) * Real.pi) := by
    have hmem : (p : ℝ) * Real.pi ∈ Set.Icc (0 : ℝ) Real.pi := ⟨hx0, hxpi.le⟩
    have hpimem : Real.pi ∈ Set.Icc (0 : ℝ) Real.pi := ⟨Real.pi_pos.le, le_refl _⟩
    have := Real.strictAntiOn_cos hmem hpimem hxpi
    rw [Real.cos_pi] at this
    exact this
  intro hle
  have : (0 : ℝ) < (Real.cos ((p : ℝ) * Real.pi) + 1) / 2 := by linarith
  linarith

/-- With a positive fade window and a nonnegative elapsed time, expiry of a
`TapDot` is exactly `elapsed >= fade_ms`. -/
theorem is_expired_iff (d : TapDot) (now : ℚ) (h0 : 0 < d.fade_ms)
    (hge : d.created_time ≤ now) :
    d.is_expired now ↔ d.fade_ms ≤ now - d.created_time := by
  constructor
  · intro hexp
    by_contra hlt
    exact not_expired_of_lt d now h0 hge (not_le.mp hlt) hexp
  · intro h
    unfold TapDot.is_expired
    rw [get_alpha_of_elapsed_ge d now h0 h]

/-- Membership in the eviction sweep of `OverlayWindow._update_dots`. -/
theorem mem_update_dots {d : TapDot} {l : List TapDot} {now : ℚ} :
    d ∈ update_dots l now ↔ d ∈ l ∧ ¬ d.is_expired now := by
  unfold update_dots
  rw [List.mem_filter]
  simp only [Bool.not_eq_true', decide_eq_false_iff_not]

/-! ### Claim theorems -/

/-- Claim C1: for every dot with a positive fade window, the opacity at
elapsed time 0 is exactly 1 and at elapsed time `fade_ms` exactly 0, for
the cosine-eased curve `TapDot.get_alpha` and for the linear curve of the
paint/cleanup path. -/
theorem c1_fade_endpoints (d : TapDot) (h : 0 < d.fade_ms) :
    d.get_alpha d.created_time = 1 ∧
    d.get_alpha (d.created_time + d.fade_ms) = 0 ∧
    linear_fade (DOT_DURATION d.fade_ms) 0 = 1 ∧
    linear_fade (DOT_DURATION d.fade_ms) (DOT_DURATION d.fade_ms) = 0 := by
  have hnle : ¬ d.fade_ms ≤ 0 := not_le.mpr h
  refine ⟨?_, ?_, ?_, ?_⟩
  · unfold TapDot.get_alpha
    rw [if_neg hnle, if_neg (by rw [sub_self]; exact hnle)]
    rw [sub_self, zero_div]
    norm_num
  · exact get_alpha_of_elapsed_ge d _ h (by linarith)
  · have hdur : 0 < DOT_DURATION d.fade_ms := by
      unfold DOT_DURATION; positivity
    unfold linear_fade
    rw [if_pos hdur, zero_div, sub_zero]
  · unfold linear_fade
    rw [if_neg (lt_irrefl _)]

/-- Witness for C1 at a concrete dot with a 1000 ms fade window. -/
theorem c1_fade_endpoints_witness :
    (⟨0, 0, "c", 8, 1000, 0⟩ : TapDot).get_alpha
        (⟨0, 0, "c", 8, 1000, 0⟩ : TapDot).created_time = 1 ∧
    (⟨0, 0, "c", 8, 1000, 0⟩ : TapDot).get_alpha
        ((⟨0, 0, "c", 8, 1000, 0⟩ : TapDot).created_time +
          (⟨0, 0, "c", 8, 1000, 0⟩ : TapDot).fade_ms) = 0 ∧
    linear_fade (DOT_DURATION (⟨0, 0, "c", 8, 1000, 0⟩ : TapDot).fade_ms) 0 = 1 ∧
    linear_fade (DOT_DURATION (⟨0, 0, "c", 8, 1000, 0⟩ : TapDot).fade_ms)
        (DOT_DURATION (⟨0, 0, "c", 8, 1000, 0⟩ : TapDot).fade_ms) = 0 :=
  c1_fade_endpoints (⟨0, 0, "c", 8, 1000, 0⟩ : TapDot) (by norm_num)

/-- Claim C2 counterexample: a `TapDot` with `fade_ms = 0` and elapsed time
5 >= 0 = `fade_ms` is NOT removed by `OverlayWindow._update_dots`, so the
sweep does not remove every dot with elapsed >= fadeDurationMs. -/
theorem c2_counterexample :
    (⟨0, 0, "c", 8, 0, 0⟩ : TapDot).fade_ms ≤
      5 - (⟨0, 0, "c", 8, 0, 0⟩ : TapDot).created_time ∧
    update_dots [(⟨0, 0, "c", 8, 0, 0⟩ : TapDot)] 5 =
      [(⟨0, 0, "c", 8, 0, 0⟩ : TapDot)] := by
  constructor
  · norm_num
  · have hne : ¬ (⟨0, 0, "c", 8, 0, 0⟩ : TapDot).is_expired 5 := by
      unfold TapDot.is_expired
      rw [get_alpha_of_nonpos _ _ (by norm_num)]
      norm_num
    unfold update_dots
    rw [List.filter_cons, List.filter_nil]
    rw [@decide_eq_false _ (Classical.propDecidable _) hne]
    rfl

/-- Claim C2 amended: among dots with a positive fade window and a creation
time not in the future, `_update_dots` removes exactly the dots whose
elapsed time is at least their fade window (dots with `fade_ms <= 0` are
kept even when elapsed >= fade window); the linear sweeps `_cleanup_dots`
remove exactly the tuples with elapsed >= DOT_DURATION, unconditionally;
survivors are kept unchanged and in order. -/
theorem c2_eviction_amended (l : List TapDot) (dots : List SimpleDot) (now dur : ℚ)
    (h : ∀ d ∈ l, 0 < d.fade_ms ∧ d.created_time ≤ now) :
    update_dots l now = l.filter (fun d => decide (now - d.created_time < d.fade_ms)) ∧
    (∀ sd : SimpleDot, sd ∈ cleanup_dots dots now dur ↔ sd ∈ dots ∧ now - sd.t < dur) ∧
    List.Sublist (update_dots l now) l ∧
    List.Sublist (cleanup_dots dots now dur) dots := by
  refine ⟨?_, ?_, ?_, ?_⟩
  · unfold update_dots
    apply List.filter_congr
    intro d hd
    obtain ⟨h0, hle⟩ := h d hd
    by_cases hexp : d.is_expired now
    · rw [@decide_eq_true _ (Classical.propDecidable _) hexp]
      have hnl : ¬ (now - d.created_time < d.fade_ms) :=
        not_lt.mpr ((is_expired_iff d now h0 hle).mp hexp)
      rw [decide_eq_false hnl]
      rfl
    · rw [@decide_eq_false _ (Classical.propDecidable _) hexp]
      have hl : now - d.created_time < d.fade_ms := by
        by_contra hge
        exact hexp ((is_expired_iff d now h0 hle).mpr (not_lt.mp hge))
      rw [decide_eq_true hl]
      rfl
  · intro sd
    unfold cleanup_dots
    rw [List.mem_filter]
    simp only [decide_eq_true_eq]
  · unfold update_dots
    exact List.filter_sublist l
  · unfold cleanup_dots
    exact List.filter_sublist dots

/-- Witness for the amended C2: at time 500, a dot with a 1000 ms window
survives and a dot with a 100 ms window is evicted. -/
theorem c2_eviction_amended_witness :
    update_dots [(⟨1, 1, "c", 8, 1000, 0⟩ : TapDot), (⟨2, 2, "c", 8, 100, 0⟩ : TapDot)] 500 =
      List.filter (fun d => decide (500 - d.created_time < d.fade_ms))
        [(⟨1, 1, "c", 8, 1000, 0⟩ : TapDot), (⟨2, 2, "c", 8, 100, 0⟩ : TapDot)] :=
  (c2_eviction_amended
      [(⟨1, 1, "c", 8, 1000, 0⟩ : TapDot), (⟨2, 2, "c", 8, 100, 0⟩ : TapDot)] [] 500 3
      (by intro d hd; fin_cases hd <;> norm_num)).1

/-- Claim C3 counterexample: in the `SimpleOverlayWindow` linear path,
`fade_ms = 0` gives `DOT_DURATION = 0`, so a dot with elapsed time 5 has
fade factor 0 (not 1) and is removed by `_cleanup_dots` rather than kept
until explicitly cleared. -/
theorem c3_counterexample :
    linear_fade (DOT_DURATION 0) 5 = 0 ∧
    linear_fade (DOT_DURATION 0) 5 ≠ 1 ∧
    cleanup_dots [(⟨10, 10, 0⟩ : SimpleDot)] 5 (DOT_DURATION 0) = [] := by
  refine ⟨?_, ?_, ?_⟩
  · norm_num [linear_fade, DOT_DURATION]
  · norm_num [linear_fade, DOT_DURATION]
  · norm_num [cleanup_dots, DOT_DURATION, List.filter_cons, List.filter_nil]

/-- Claim C3 amended: in the `TapDot` engine a dot with `fade_ms <= 0`
keeps opacity 1 forever, never expires and survives every eviction sweep;
in the linear `SimpleOverlayWindow` engine a nonpositive `DOT_DURATION`
instead makes every dot with nonnegative elapsed time have fade factor 0
and be removed by the sweep immediately. -/
theorem c3_no_fade_amended (d : TapDot) (now : ℚ) (l : List TapDot)
    (dots : List SimpleDot) (sd : SimpleDot) (dur : ℚ)
    (hf : d.fade_ms ≤ 0) (hd : d ∈ l) (hdur : dur ≤ 0) (hage : 0 ≤ now - sd.t) :
    d.get_alpha now = 1 ∧ ¬ d.is_expired now ∧ d ∈ update_dots l now ∧
    linear_fade dur (now - sd.t) = 0 ∧ sd ∉ cleanup_dots dots now dur := by
  have h1 := get_alpha_of_nonpos d now hf
  have hexp : ¬ d.is_expired now := by
    unfold TapDot.is_expired
    rw [h1]
    norm_num
  refine ⟨h1, hexp, mem_update_dots.mpr ⟨hd, hexp⟩, ?_, ?_⟩
  · unfold linear_fade
    rw [if_neg (not_lt.mpr (by linarith))]
  · unfold cleanup_dots
    rw [List.mem_filter]
    rintro ⟨-, hmem⟩
    rw [decide_eq_true_eq] at hmem
    linarith

/-- Witness for the amended C3 at `fade_ms = 0`, elapsed time 5. -/
theorem c3_no_fade_amended_witness :
    (⟨0, 0, "c", 8, 0, 0⟩ : TapDot).get_alpha 5 = 1 ∧
    ¬ (⟨0, 0, "c", 8, 0, 0⟩ : TapDot).is_expired 5 ∧
    (⟨0, 0, "c", 8, 0, 0⟩ : TapDot) ∈ update_dots [(⟨0, 0, "c", 8, 0, 0⟩ : TapDot)] 5 ∧
    linear_fade 0 (5 - (⟨10, 10, 0⟩ : SimpleDot).t) = 0 ∧
    (⟨10, 10, 0⟩ : SimpleDot) ∉ cleanup_dots [(⟨10, 10, 0⟩ : SimpleDot)] 5 0 :=
  c3_no_fade_amended (⟨0, 0, "c", 8, 0, 0⟩ : TapDot) 5 _ _ (⟨10, 10, 0⟩ : SimpleDot) 0
    (by norm_num) (List.mem_singleton_self _) (le_refl 0) (by norm_num)

/-- Python `int()` is the floor on nonnegative rationals. -/
theorem py_int_of_nonneg (q : ℚ) (h : 0 ≤ q) : py_int q = ⌊q⌋ := by
  unfold py_int
  rw [if_neg (not_lt.mpr h)]

/-- Claim C4 counterexample: on a 3x3 region at the origin, the code maps
the normalized centre (1/2, 1/2) to the pixel (1, 1), while the exact
value nx*width + originX is 3/2, so the mapping is not exact and the
mapped point is not the exact region centre. -/
theorem c4_counterexample :
    map_tap (⟨0, 0, 3, 3⟩ : Monitor) (1 / 2) (1 / 2) = (1, 1) ∧
    (1 / 2 : ℚ) * ((⟨0, 0, 3, 3⟩ : Monitor).width : ℚ) + ((⟨0, 0, 3, 3⟩ : Monitor).x : ℚ)
      ≠ ((1 : ℤ) : ℚ) := by
  constructor
  · unfold map_tap py_int
    norm_num
  · norm_num

/-- Claim C4 amended: the mapping truncates to whole pixels,
`px = int(nx*width) + originX`: it is exact at (0,0) and (1,1), in general
equals the floor of the linear map (for nonnegative inputs and sizes) and
differs from the exact linear value by less than one pixel; (1/2, ny) hits
the exact horizontal centre only when the width is even. -/
theorem c4_mapping_amended (m : Monitor) (nx ny : ℚ)
    (hx : 0 ≤ nx) (hy : 0 ≤ ny) (hw : 0 ≤ m.width) (hh : 0 ≤ m.height) :
    map_tap m 0 0 = (m.x, m.y) ∧
    map_tap m 1 1 = (m.x + m.width, m.y + m.height) ∧
    map_tap m nx ny = (⌊nx * (m.width : ℚ)⌋ + m.x, ⌊ny * (m.height : ℚ)⌋ + m.y) ∧
    |(((map_tap m nx ny).1 : ℚ)) - (nx * (m.width : ℚ) + (m.x : ℚ))| < 1 ∧
    |(((map_tap m nx ny).2 : ℚ)) - (ny * (m.height : ℚ) + (m.y : ℚ))| < 1 ∧
    (2 ∣ m.width → (((map_tap m (1 / 2) ny).1 : ℚ)) = 1 / 2 * (m.width : ℚ) + (m.x : ℚ)) := by
  have hwq : (0 : ℚ) ≤ (m.width : ℚ) := by exact_mod_cast hw
  have hhq : (0 : ℚ) ≤ (m.height : ℚ) := by exact_mod_cast hh
  have hmap : map_tap m nx ny =
      (⌊nx * (m.width : ℚ)⌋ + m.x, ⌊ny * (m.height : ℚ)⌋ + m.y) := by
    unfold map_tap
    rw [py_int_of_nonneg _ (mul_nonneg hx hwq), py_int_of_nonneg _ (mul_nonneg hy hhq)]
  refine ⟨?_, ?_, hmap, ?_, ?_, ?_⟩
  · unfold map_tap
    rw [zero_mul, zero_mul, py_int_of_nonneg 0 (le_refl 0)]
    norm_num
  · unfold map_tap
    rw [one_mul, one_mul, py_int_of_nonneg _ hwq, py_int_of_nonneg _ hhq,
      Int.floor_intCast, Int.floor_intCast]
    rw [Prod.mk.injEq]
    constructor <;> ring
  · rw [hmap]
    have hfl := Int.floor_le (nx * (m.width : ℚ))
    have hfu := Int.lt_floor_add_one (nx * (m.width : ℚ))
    rw [abs_lt]
    push_cast
    constructor <;> linarith
  · rw [hmap]
    have hfl := Int.floor_le (ny * (m.height : ℚ))
    have hfu := Int.lt_floor_add_one (ny * (m.height : ℚ))
    rw [abs_lt]
    push_cast
    constructor <;> linarith
  · rintro ⟨k, hk⟩
    have hk0 : 0 ≤ k := by omega
    have hmap2 : (map_tap m (1 / 2) ny).1 = ⌊(1 / 2 : ℚ) * (m.width : ℚ)⌋ + m.x := by
      unfold map_tap
      rw [py_int_of_nonneg _ (mul_nonneg (by norm_num) hwq)]
    rw [hmap2, hk]
    have : (1 / 2 : ℚ) * ((2 * k : ℤ) : ℚ) = (k : ℚ) := by
      push_cast
      ring
    rw [this, Int.floor_intCast]
    push_cast
    ring

/-- Witness for the amended C4 on a 4x3 region at (7, 9). -/
theorem c4_mapping_amended_witness :
    map_tap (⟨7, 9, 4, 3⟩ : Monitor) 1 1 =
      ((⟨7, 9, 4, 3⟩ : Monitor).x + (⟨7, 9, 4, 3⟩ : Monitor).width,
        (⟨7, 9, 4, 3⟩ : Monitor).y + (⟨7, 9, 4, 3⟩ : Monitor).height) ∧
    (((map_tap (⟨7, 9, 4, 3⟩ : Monitor) (1 / 2) (1 / 2)).1 : ℚ)) =
      1 / 2 * ((⟨7, 9, 4, 3⟩ : Monitor).width : ℚ) + ((⟨7, 9, 4, 3⟩ : Monitor).x : ℚ) :=
  ⟨(c4_mapping_amended (⟨7, 9, 4, 3⟩ : Monitor) (1 / 2) (1 / 2)
      (by norm_num) (by norm_num) (by norm_num) (by norm_num)).2.1,
    (c4_mapping_amended (⟨7, 9, 4, 3⟩ : Monitor) (1 / 2) (1 / 2)
      (by norm_num) (by norm_num) (by norm_num) (by norm_num)).2.2.2.2.2 (by norm_num)⟩

/-- Claim C5 counterexample: with grace window 10 and start time 1000, a
response whose timestamp converts to the numeric value 0 predates
start - grace (0 < 990) and yet is retained, because Python's truthiness
test `if ts_val and ...` treats 0 as falsy. -/
theorem c5_counterexample :
    stale_discard 10 1000 (TsField.num 0) = false ∧ (0 : ℚ) < 1000 - 10 := by
  constructor
  · norm_num [stale_discard, ts_val]
  · norm_num

/-- Claim C5 amended: with a positive grace window the filter discards
exactly the responses whose timestamp converts to a nonzero numeric value
below start - grace; every response is retained when the grace window is 0
or unset; in particular a response timestamped 100 s before start is
discarded with grace 10 provided that timestamp is nonzero, and retained
with grace 0. -/
theorem c5_stale_amended (g s v : ℚ) (ts : TsField) (hv : ts_val ts = some v) :
    (stale_discard g s ts = true ↔ 0 < g ∧ (v ≠ 0 ∧ v < s - g)) ∧
    stale_discard 0 s ts = false ∧
    (s - 100 ≠ 0 → stale_discard 10 s (TsField.num (s - 100)) = true) := by
  refine ⟨?_, ?_, ?_⟩
  · unfold stale_discard
    rw [hv]
    split_ifs with hg
    · simp [hg]
    · simp [hg]
  · unfold stale_discard
    rw [if_neg (lt_irrefl 0)]
  · intro hne
    unfold stale_discard
    rw [if_pos (by norm_num : (0 : ℚ) < 10)]
    show (decide (s - 100 ≠ 0) && decide (s - 100 < s - 10)) = true
    rw [decide_eq_true hne, decide_eq_true (by linarith : s - 100 < s - 10)]
    rfl

/-- Witness for the amended C5 with grace 10, start 1000 and a numeric
timestamp 900. -/
theorem c5_stale_amended_witness :
    (stale_discard 10 1000 (TsField.num 900) = true ↔
      (0 : ℚ) < 10 ∧ ((900 : ℚ) ≠ 0 ∧ (900 : ℚ) < 1000 - 10)) ∧
    stale_discard 0 1000 (TsField.num 900) = false ∧
    ((1000 : ℚ) - 100 ≠ 0 → stale_discard 10 1000 (TsField.num (1000 - 100)) = true) :=
  c5_stale_amended 10 1000 900 (TsField.num 900) rfl

/-- Claim C6 counterexample: a response with out-of-range normalized
coordinate x = 2 and a missing timestamp is not skipped: the handler maps
it and a dot is added to the collection by `add_dot`. -/
theorem c6_counterexample :
    on_new_response 0 0 0 (⟨0, 0, 1920, 1080⟩ : Monitor)
        (⟨2, 2, TsField.pynone⟩ : Response) 0 = HandlerResult.dotAdded (3840, 2160) ∧
    add_dot [] 3840 2160 7 = [(⟨3840, 2160, 7⟩ : SimpleDot)] ∧
    add_dot [] 3840 2160 7 ≠ [] := by
  refine ⟨?_, rfl, by simp [add_dot]⟩
  · have hsd : stale_discard 0 0 (⟨2, 2, TsField.pynone⟩ : Response).timestamp = false := by
      unfold stale_discard
      rw [if_neg (lt_irrefl 0)]
    unfold on_new_response
    rw [hsd]
    norm_num [map_tap, py_int]

/-- Claim C6 amended: malformed or missing timestamps and out-of-range
coordinates never abort processing, but the input is not skipped either:
whenever the slide index matches, the handler still produces a dot at the
mapped position regardless of coordinate range, and `add_dot` appends it
to the collection unconditionally, leaving the earlier dots in place. -/
theorem c6_no_skip_amended (g s : ℚ) (cur : ℤ) (m : Monitor) (r : Response)
    (dots : List SimpleDot) (px qy t : ℚ)
    (hts : ts_val r.timestamp = none) :
    on_new_response g s cur m r cur = HandlerResult.dotAdded (map_tap m r.x r.y) ∧
    (⟨px, qy, t⟩ : SimpleDot) ∈ add_dot dots px qy t ∧
    List.Sublist dots (add_dot dots px qy t) := by
  refine ⟨?_, ?_, ?_⟩
  · have hsd : stale_discard g s r.timestamp = false := by
      unfold stale_discard
      rw [hts]
      split_ifs <;> rfl
    unfold on_new_response
    rw [hsd]
    simp
  · unfold add_dot
    exact List.mem_append_right _ (List.mem_singleton_self _)
  · unfold add_dot
    exact List.sublist_append_left dots _

/-- Witness for the amended C6: out-of-range (2, 2) with a missing
timestamp still yields a dot, appended to an empty collection. -/
theorem c6_no_skip_amended_witness :
    on_new_response 10 1000 0 (⟨0, 0, 1920, 1080⟩ : Monitor)
        (⟨2, 2, TsField.pynone⟩ : Response) 0 =
      HandlerResult.dotAdded (map_tap (⟨0, 0, 1920, 1080⟩ : Monitor)
        (⟨2, 2, TsField.pynone⟩ : Response).x (⟨2, 2, TsField.pynone⟩ : Response).y) ∧
    (⟨3840, 2160, 7⟩ : SimpleDot) ∈ add_dot [] 3840 2160 7 ∧
    List.Sublist [] (add_dot [] 3840 2160 7) :=
  c6_no_skip_amended 10 1000 0 (⟨0, 0, 1920, 1080⟩ : Monitor)
    (⟨2, 2, TsField.pynone⟩ : Response) [] 3840 2160 7 rfl

/-- Claim C7 counterexample: the linear fade-factor computation evaluated
at a negative age (now one fade-window before createdAt, duration 2)
returns 2, which is outside [0, 1]. -/
theorem c7_counterexample :
    linear_fade 2 (-2) = 2 ∧ ¬ linear_fade 2 (-2) ≤ 1 := by
  constructor <;> norm_num [linear_fade]

/-- Claim C7 amended: the cosine-eased opacity lies in [0, 1] for every
dot and every time; the linear fade factor lies in [0, 1] for every
duration whenever the elapsed time is nonnegative (now at or after the
dot's creation). -/
theorem c7_opacity_range_amended (d : TapDot) (now dur age : ℚ) (hage : 0 ≤ age) :
    (0 ≤ d.get_alpha now ∧ d.get_alpha now ≤ 1) ∧
    0 ≤ linear_fade dur age ∧ linear_fade dur age ≤ 1 := by
  refine ⟨get_alpha_bounds d now, ?_, ?_⟩
  · unfold linear_fade
    split_ifs with hlt
    · have hdur : 0 < dur := lt_of_le_of_lt hage hlt
      have hd1 : age / dur ≤ 1 := (div_le_one hdur).mpr hlt.le
      linarith
    · exact le_refl 0
  · unfold linear_fade
    split_ifs with hlt
    · have hdur : 0 < dur := lt_of_le_of_lt hage hlt
      have hd0 : 0 ≤ age / dur := div_nonneg hage hdur.le
      linarith
    · norm_num

/-- Witness for the amended C7 at a concrete dot, duration 2 and age 3. -/
theorem c7_opacity_range_amended_witness :
    (0 ≤ (⟨0, 0, "c", 8, 1000, 0⟩ : TapDot).get_alpha 500 ∧
      (⟨0, 0, "c", 8, 1000, 0⟩ : TapDot).get_alpha 500 ≤ 1) ∧
    0 ≤ linear_fade 2 3 ∧ linear_fade 2 3 ≤ 1 :=
  c7_opacity_range_amended (⟨0, 0, "c", 8, 1000, 0⟩ : TapDot) 500 2 3 (by norm_num)

/-- Claim C8: a dot's visible opacity is a pure function of only
(now - createdAt) and fadeDurationMs — two dots with the same fade window
and the same elapsed time have the same opacity — and the eviction sweep
never alters a surviving dot: its output is a sublist of its input, so the
only state change a dot can undergo is removal. -/
theorem c8_dot_purity (d e : TapDot) (t u : ℚ) (l : List TapDot) (now : ℚ)
    (hfade : d.fade_ms = e.fade_ms) (helap : t - d.created_time = u - e.created_time) :
    d.get_alpha t = e.get_alpha u ∧ List.Sublist (update_dots l now) l := by
  constructor
  · unfold TapDot.get_alpha
    rw [helap, hfade]
  · unfold update_dots
    exact List.filter_sublist l

/-- Witness for C8: two dots with different positions, colours, radii and
creation times but equal fade window and elapsed time 50. -/
theorem c8_dot_purity_witness :
    (⟨0, 0, "c", 8, 1000, 100⟩ : TapDot).get_alpha 150 =
      (⟨5, 5, "d", 3, 1000, 200⟩ : TapDot).get_alpha 250 ∧
    List.Sublist (update_dots [] 0) [] :=
  c8_dot_purity (⟨0, 0, "c", 8, 1000, 100⟩ : TapDot) (⟨5, 5, "d", 3, 1000, 200⟩ : TapDot)
    150 250 [] 0 rfl (by norm_num)

/-- Every time at which the HTTP-trigger callback runs during `http_run`
is at least one cooldown after the initial state. -/
theorem http_run_ge (ts : List ℚ) (last v : ℚ) (hv : v ∈ http_run last ts) :
    last + HTTP_TRIGGER_COOLDOWN_MS ≤ v := by
  induction ts generalizing last with
  | nil => simp [http_run] at hv
  | cons t ts ih =>
    unfold http_run at hv
    split_ifs at hv with h
    · exact ih last hv
    · rcases List.mem_cons.mp hv with rfl | hmem
      · have h2 := not_lt.mp h
        unfold HTTP_TRIGGER_COOLDOWN_MS at h2 ⊢
        linarith
      · have h1 := ih t hmem
        have h2 := not_lt.mp h
        unfold HTTP_TRIGGER_COOLDOWN_MS at h1 h2 ⊢
        linarith

/-- Consecutive callback runs of `http_run` are always at least one
cooldown apart. -/
theorem http_run_pairwise (ts : List ℚ) (last : ℚ) :
    List.Pairwise (fun a b => a + HTTP_TRIGGER_COOLDOWN_MS ≤ b) (http_run last ts) := by
  induction ts generalizing last with
  | nil => simp [http_run]
  | cons t ts ih =>
    unfold http_run
    split_ifs with h
    · exact ih last
    · exact List.Pairwise.cons (fun v hv => http_run_ge ts t v hv) (ih t)

/-- Claim C9: across any sequence of HTTP capture-trigger invocations, any
two invocations that run the screenshot callback are at least 2000 ms
apart (so no invocation arriving strictly less than 2000 ms after a run
runs the callback), and an invocation inside the cooldown returns the
cooldown result, leaves the module state unchanged and contributes no
capture. -/
theorem c9_http_cooldown (last t : ℚ) (ts rest : List ℚ)
    (h : t - last < HTTP_TRIGGER_COOLDOWN_MS) :
    List.Pairwise (fun a b => a + HTTP_TRIGGER_COOLDOWN_MS ≤ b) (http_run last ts) ∧
    handle_http_trigger last t = (last, TriggerResult.cooldown) ∧
    http_run last (t :: rest) = http_run last rest := by
  refine ⟨http_run_pairwise ts last, ?_, ?_⟩
  · unfold handle_http_trigger
    rw [if_pos h]
  · conv_lhs => rw [http_run]
    rw [if_pos h]

/-- Witness for C9: arrivals at 2500, 3000 and 6000 ms with state 2500;
the arrival at 3000 (500 ms after 2500) is blocked. -/
theorem c9_http_cooldown_witness :
    List.Pairwise (fun a b => a + HTTP_TRIGGER_COOLDOWN_MS ≤ b)
      (http_run 2500 [2500, 3000, 6000]) ∧
    handle_http_trigger 2500 3000 = (2500, TriggerResult.cooldown) ∧
    http_run 2500 (3000 :: [6000]) = http_run 2500 [6000] :=
  c9_http_cooldown 2500 3000 [2500, 3000, 6000] [6000]
    (by norm_num [HTTP_TRIGGER_COOLDOWN_MS])

/-- Claim C10: a response whose timestamp field converts to 0, or is
absent, or is neither numeric nor timestamp-like, is never discarded by
the stale filter even with a positive grace window: it proceeds to the
slide-index check and, when the slide matches, to dot rendering. -/
theorem c10_falsy_ts_retained (g s : ℚ) (cur si : ℤ) (m : Monitor) (r : Response)
    (h : ts_val r.timestamp = none ∨ ts_val r.timestamp = some 0) :
    stale_discard g s r.timestamp = false ∧
    on_new_response g s cur m r si ≠ HandlerResult.staleSkip ∧
    (si = cur → on_new_response g s cur m r si = HandlerResult.dotAdded (map_tap m r.x r.y)) := by
  have hsd : stale_discard g s r.timestamp = false := by
    unfold stale_discard
    rcases h with h | h <;> rw [h]
    · split_ifs <;> rfl
    · split_ifs with hg
      · simp
      · rfl
  refine ⟨hsd, ?_, ?_⟩
  · unfold on_new_response
    rw [hsd]
    split_ifs <;> simp_all
  · intro hsi
    unfold on_new_response
    rw [hsd]
    simp [hsi]

/-- Witness for C10: grace 10, start 1000, numeric timestamp 0, matching
slide index 0. -/
theorem c10_falsy_ts_retained_witness :
    stale_discard 10 1000 (⟨1 / 2, 1 / 2, TsField.num 0⟩ : Response).timestamp = false ∧
    on_new_response 10 1000 0 (⟨0, 0, 100, 100⟩ : Monitor)
        (⟨1 / 2, 1 / 2, TsField.num 0⟩ : Response) 0 ≠ HandlerResult.staleSkip ∧
    ((0 : ℤ) = 0 → on_new_response 10 1000 0 (⟨0, 0, 100, 100⟩ : Monitor)
        (⟨1 / 2, 1 / 2, TsField.num 0⟩ : Response) 0 =
      HandlerResult.dotAdded (map_tap (⟨0, 0, 100, 100⟩ : Monitor)
        (⟨1 / 2, 1 / 2, TsField.num 0⟩ : Response).x
        (⟨1 / 2, 1 / 2, TsField.num 0⟩ : Response).y)) :=
  c10_falsy_ts_retained 10 1000 0 0 (⟨0, 0, 100, 100⟩ : Monitor)
    (⟨1 / 2, 1 / 2, TsField.num 0⟩ : Response) (Or.inr rfl)

end FirestorePresentation
